import Mathlib

/-!
Verification of the folder orchestration loop of the ownCloud sync client
(`src/gui/folder.cpp`), shallowly embedded in Lean. Qt signal emissions are
modelled as boolean outputs, journal tables as lists, and the ambient state
read by a slot as explicit inputs.
-/

namespace OCC

/-- Folder sync status (`SyncResult::Status`), as used by `folder.cpp`. -/
inductive SyncStatus where
  | NotYetStarted
  | SyncPrepare
  | SyncRunning
  | SyncAbortRequested
  | Success
  | Problem
  | Error
  | SetupError
  | Paused
deriving DecidableEq, Repr

/-- Local discovery mode handed to the engine (`LocalDiscoveryStyle`). -/
inductive LocalDiscoveryStyle where
  | DatabaseAndFilesystem
  | FilesystemOnly
deriving DecidableEq, Repr

/-- Model of `QElapsedTimer::hasExpired(timeout)`: the elapsed time strictly exceeds the
timeout. `folder.cpp` only calls it under an `interval >= 0` guard, so the
unsigned-wraparound behaviour of negative timeouts never matters. -/
def hasExpired (elapsedMs : Nat) (timeoutMs : Int) : Bool :=
  (elapsedMs : Int) > timeoutMs

/-- The local-discovery mode selection at the start of a sync run
(`Folder::startSync`, folder.cpp lines 923-947). Inputs: whether
`_folderWatcher` exists and `isReliable()`, whether
`_timeSinceLastFullLocalDiscovery.isValid()` (a full local discovery has
happened), the elapsed time of that timer, and the configured
`fullLocalDiscoveryInterval` (config value, possibly overridden by the
environment; negative means periodic full runs are never required). -/
def startSyncLocalDiscoveryStyle (folderWatcherExists watcherIsReliable : Bool)
    (hasDoneFullLocalDiscovery : Bool) (elapsedSinceFullLocalDiscoveryMs : Nat)
    (fullLocalDiscoveryIntervalMs : Int) : LocalDiscoveryStyle :=
  let periodicFullLocalDiscoveryNow :=
    decide (0 ≤ fullLocalDiscoveryIntervalMs)
      && hasExpired elapsedSinceFullLocalDiscoveryMs fullLocalDiscoveryIntervalMs
  if folderWatcherExists && watcherIsReliable && hasDoneFullLocalDiscovery
      && !periodicFullLocalDiscoveryNow then
    LocalDiscoveryStyle.DatabaseAndFilesystem
  else
    LocalDiscoveryStyle.FilesystemOnly

/-- Result of `SyncEngine::isAnotherSyncNeeded()`, as tested by
`Folder::slotSyncFinished` (only the comparison with `ImmediateFollowUp`
appears in folder.cpp). -/
inductive AnotherSyncNeeded where
  | NoFollowUpSync
  | ImmediateFollowUp
deriving DecidableEq, Repr

/-- The folder-side state read and written by `Folder::slotSyncFinished`:
the sync result's error strings and item-failure flag, the definition's
paused flag, the two consecutive-run counters, the journal's selective-sync
whitelist, and the validity of `_timeSinceLastFullLocalDiscovery`. -/
structure FolderState where
  status : SyncStatus
  syncErrorStrings : List String
  foundFilesNotSynced : Bool
  definitionPaused : Bool
  consecutiveFailingSyncs : Nat
  consecutiveFollowUpSyncs : Nat
  selectiveSyncWhiteList : List String
  timeSinceLastFullLocalDiscoveryValid : Bool
deriving DecidableEq, Repr

/-- Embedding of `Folder::slotSyncFinished(bool success)` (folder.cpp lines 1014-1092):
computes the final status from the recorded error strings, the item failures
and the paused flag, maintains the failing/follow-up counters, clears the
selective-sync whitelist after a fully successful run, restarts the
full-local-discovery timer after a successful `FilesystemOnly` run, and
returns whether `scheduleThisFolderSoon()` was called to trigger a follow-up
sync. -/
def slotSyncFinished (success : Bool) (anotherSyncNeeded : AnotherSyncNeeded)
    (lastLocalDiscoveryStyle : LocalDiscoveryStyle) (s : FolderState) :
    FolderState × Bool :=
  let status :=
    if s.syncErrorStrings ≠ [] then SyncStatus.Error
    else if s.foundFilesNotSynced then SyncStatus.Problem
    else if s.definitionPaused then SyncStatus.Paused
    else SyncStatus.Success
  let consecutiveFailingSyncs :=
    if status = SyncStatus.Success ∨ status = SyncStatus.Problem then 0
    else s.consecutiveFailingSyncs + 1
  let selectiveSyncWhiteList :=
    if status = SyncStatus.Success ∧ success = true then []
    else s.selectiveSyncWhiteList
  let timeValid :=
    if (status = SyncStatus.Success ∨ status = SyncStatus.Problem)
        ∧ success = true
        ∧ lastLocalDiscoveryStyle = LocalDiscoveryStyle.FilesystemOnly then true
    else s.timeSinceLastFullLocalDiscoveryValid
  let consecutiveFollowUpSyncs :=
    if anotherSyncNeeded = AnotherSyncNeeded.ImmediateFollowUp then
      s.consecutiveFollowUpSyncs + 1
    else 0
  let scheduled :=
    decide (anotherSyncNeeded = AnotherSyncNeeded.ImmediateFollowUp)
      && decide (consecutiveFollowUpSyncs ≤ 3)
  ({ s with
      status := status
      consecutiveFailingSyncs := consecutiveFailingSyncs
      selectiveSyncWhiteList := selectiveSyncWhiteList
      timeSinceLastFullLocalDiscoveryValid := timeValid
      consecutiveFollowUpSyncs := consecutiveFollowUpSyncs }, scheduled)

/-- The follow-up schedule decisions of a row of finished sync runs that all
request an immediate follow-up, starting from state `s`. -/
def followUpScheduleTrace (success : Bool) (style : LocalDiscoveryStyle) :
    FolderState → Nat → List Bool
  | _, 0 => []
  | s, n + 1 =>
    let r := slotSyncFinished success AnotherSyncNeeded.ImmediateFollowUp style s
    r.2 :: followUpScheduleTrace success style r.1 n

/-- The slash character used as path separator throughout `folder.cpp`. -/
def slashChar : Char := '/'

/-- Model of `QString::endsWith(QLatin1Char c)`: the last character is `c`. -/
def endsWithChar (s : String) (c : Char) : Bool :=
  match s.data.getLast? with
  | some d => decide (d = c)
  | _ => false

/-- The big-folder path normalization at the start of
`Folder::slotNewBigFolderDiscovered`: append a trailing slash unless one is
already there. -/
def normalizedBigFolderPath (newF : String) : String :=
  if endsWithChar newF slashChar then newF else newF.push slashChar

/-- The journal's three selective-sync lists (`SyncJournalDb`). -/
structure SelectiveSyncLists where
  blackList : List String
  whiteList : List String
  undecidedList : List String
deriving DecidableEq, Repr

/-- Embedding of `Folder::slotNewBigFolderDiscovered` (folder.cpp lines 1133-1166):
normalizes the discovered path, adds it to the selective-sync blacklist when
it is in neither the blacklist nor the whitelist, adds it to the undecided
list when not already there, and in exactly that case emits the
`newBigFolderDiscovered` event (returned as the boolean). The journal reads
are modelled as always succeeding. -/
def slotNewBigFolderDiscovered (j : SelectiveSyncLists) (newF : String) :
    SelectiveSyncLists × Bool :=
  let newFolder := normalizedBigFolderPath newF
  let j₁ :=
    if newFolder ∉ j.blackList ∧ newFolder ∉ j.whiteList then
      { j with blackList := j.blackList ++ [newFolder] }
    else j
  if newFolder ∈ j₁.undecidedList then (j₁, false)
  else ({ j₁ with undecidedList := j₁.undecidedList ++ [newFolder] }, true)

/-- Modelled from the spec: `SyncJournalErrorBlacklistRecord::Category`
(`common/syncjournalfilerecord.h` is not under src/); the spec's error
blacklist categories are normal, soft_local (`LocalSoftError`) and
file_locked. -/
inductive BlacklistCategory where
  | Normal
  | LocalSoftError
  | FileLocked
deriving DecidableEq, Repr

/-- The journal's error blacklist, path keyed, one category per entry. -/
abbrev ErrorBlacklist := List (String × BlacklistCategory)

/-- Category filter of a blacklist wipe: an absent filter matches any entry. -/
def categoryMatches (cat : Option BlacklistCategory) (c : BlacklistCategory) :
    Bool :=
  match cat with
  | some c₀ => decide (c = c₀)
  | _ => true

/-- Modelled from the spec: `SyncJournalDb::wipeErrorBlacklistEntry`
(`common/syncjournaldb.cpp` is not under src/): removes the error-blacklist
entry stored for the given path, restricted to the given category when one is
passed. -/
def wipeErrorBlacklistEntry (bl : ErrorBlacklist) (p : String)
    (cat : Option BlacklistCategory) : ErrorBlacklist :=
  bl.filter fun e => ! (decide (e.1 = p) && categoryMatches cat e.2)

/-- Modelled from the spec: `SyncJournalDb::errorBlacklistEntry`
(`common/syncjournaldb.cpp` is not under src/): the record stored for a path,
when present; `isValid()` of the returned record corresponds to `some`. -/
def errorBlacklistEntry (bl : ErrorBlacklist) (p : String) :
    Option (String × BlacklistCategory) :=
  bl.find? fun e => decide (e.1 = p)

/-- Modelled from the spec: `SyncJournalDb::wipeErrorBlacklistCategory`
(`common/syncjournaldb.cpp` is not under src/): removes every entry of the
given category ("soft_local is wiped", spec section 4.1). -/
def wipeErrorBlacklistCategory (bl : ErrorBlacklist) (c : BlacklistCategory) :
    ErrorBlacklist :=
  bl.filter fun e => ! decide (e.2 = c)

/-- The error-blacklist effect of the `Folder` constructor (folder.cpp lines
101-105): when the local path checks out (`checkLocalPath()`), the whole
`LocalSoftError` category is wiped, since those errors should not persist
over sessions. -/
def folderConstructorBlacklist (checkLocalPathOk : Bool) (bl : ErrorBlacklist) :
    ErrorBlacklist :=
  if checkLocalPathOk then
    wipeErrorBlacklistCategory bl BlacklistCategory.LocalSoftError
  else bl

/-- Model of `p.left(p.lastIndexOf(slash))` on the character list of a path:
the prefix before the last slash, or nothing when the path has no slash. -/
def chopAtLastSlash : List Char → Option (List Char)
  | [] => Option.none
  | c :: rest =>
    match chopAtLastSlash rest with
    | some r => some (c :: r)
    | _ => if c = slashChar then some [] else Option.none

/-- The chain of parent paths visited by the unlock loop of
`Folder::slotWatchedPathChanged`: repeatedly chop at the last slash while a
slash remains. Fuel-driven; the initial character count is always enough fuel
because every chop shortens the path. -/
def ancestorChainAux : Nat → List Char → List (List Char)
  | 0, _ => []
  | n + 1, l =>
    match chopAtLastSlash l with
    | some r => r :: ancestorChainAux n r
    | _ => []

/-- The parent paths of a relative path, outermost last, exactly as the
`while ((index = p.lastIndexOf('/')) != -1)` loop enumerates them. -/
def ancestorChain (relativePath : String) : List String :=
  (ancestorChainAux relativePath.data.length relativePath.data).map
    fun l => String.mk l

/-- One step of the unlock loop body (folder.cpp lines 627-637): look the
parent path up in the error blacklist and wipe its entry when the entry is
valid and has category `LocalSoftError`. -/
def unlockAncestorStep (acc : ErrorBlacklist) (p : String) : ErrorBlacklist :=
  match errorBlacklistEntry acc p with
  | some r =>
    if r.2 = BlacklistCategory.LocalSoftError then
      wipeErrorBlacklistEntry acc p Option.none
    else acc
  | _ => acc

/-- The unlock branch of `Folder::slotWatchedPathChanged` (folder.cpp lines
622-639): wipe the `LocalSoftError` entry for the path itself, then walk the
parent chain wiping every entry whose category is `LocalSoftError`. -/
def unlockWipe (bl : ErrorBlacklist) (relativePath : String) : ErrorBlacklist :=
  (ancestorChain relativePath).foldl unlockAncestorStep
    (wipeErrorBlacklistEntry bl relativePath
      (some BlacklistCategory.LocalSoftError))

/-- The reason delivered with a watcher notification
(`Folder::ChangeReason`, as used in folder.cpp). -/
inductive ChangeReason where
  | UnLock
  | Other
deriving DecidableEq, Repr

/-- VFS pin state (spec section 3). -/
inductive PinState where
  | Inherited
  | AlwaysLocal
  | OnlineOnly
  | Unspecified
deriving DecidableEq, Repr

/-- Modelled from the spec: `FileSystem::isChildPathOf`
(`libsync/filesystem.cpp` is not under src/): the notification path is
contained in the sync root, i.e. the folder path is a prefix of it. -/
def isChildPathOf (child parent : String) : Bool :=
  parent.data.isPrefixOf child.data

/-- The ambient state read by `Folder::slotWatchedPathChanged`: the folder's
canonical local path, whether `SyncEngine::wasFileTouched` reports the
notified path as the engine's own change, the journal file record for the
relative path (validity, whether `FileSystem::fileChanged` sees a real
mtime/size change against it, file/virtual-file kind), and the VFS pin state
of the relative path. -/
structure WatchedEnv where
  folderPath : String
  engineTouched : Bool
  recordValid : Bool
  fileChanged : Bool
  pinState : Option PinState
  recordIsVirtualFile : Bool
  recordIsFile : Bool
deriving DecidableEq, Repr

/-- The spurious-notification test of `Folder::slotWatchedPathChanged`
(folder.cpp lines 666-685): a notification is spurious when the journal
record is valid and mtime/size did not change, unless a pin state contradicts
the record (an `AlwaysLocal` virtual file or an `OnlineOnly` hydrated file
must still be synced). -/
def spuriousNotice (e : WatchedEnv) : Bool :=
  if e.recordValid && ! e.fileChanged then
    match e.pinState with
    | some PinState.AlwaysLocal => ! e.recordIsVirtualFile
    | some PinState.OnlineOnly => ! e.recordIsFile
    | _ => true
  else false

/-- Embedding of `Folder::slotWatchedPathChanged(path, reason)` (folder.cpp lines
614-693). Returns the journal error blacklist, the touched-path list of the
local discovery tracker, and whether `scheduleThisFolderSoon()` was reached.
A path outside the folder is ignored; an unlock notification wipes soft-local
blacklist entries; the relative path is always added to the touched set; the
engine's own changes and spurious notifications return before scheduling. -/
def slotWatchedPathChanged (e : WatchedEnv) (bl : ErrorBlacklist)
    (touched : List String) (path : String) (reason : ChangeReason) :
    ErrorBlacklist × List String × Bool :=
  if isChildPathOf path e.folderPath then
    let relativePath := path.drop e.folderPath.length
    let bl₁ :=
      if reason = ChangeReason.UnLock then unlockWipe bl relativePath else bl
    let touched₁ := touched ++ [relativePath]
    if e.engineTouched then (bl₁, touched₁, false)
    else if reason ≠ ChangeReason.UnLock ∧ spuriousNotice e = true then
      (bl₁, touched₁, false)
    else (bl₁, touched₁, true)
  else (bl, touched, false)

/-- The sync options structure filled by `Folder::setSyncOptions`
(the fields assigned in folder.cpp lines 956-977). -/
structure SyncOptions where
  newBigFolderSizeLimit : Int
  confirmExternalStorage : Bool
  moveFilesToTrash : Bool
  parallelNetworkJobs : Nat
  initialChunkSize : Nat
  minChunkSize : Nat
  maxChunkSize : Nat
  targetChunkUploadDuration : Nat
deriving DecidableEq, Repr

/-- The `ConfigFile` values read by `Folder::setSyncOptions`. -/
structure ConfigInputs where
  newBigFolderSizeLimitEnabled : Bool
  newBigFolderSizeLimitMB : Int
  confirmExternalStorage : Bool
  moveToTrash : Bool
  chunkSize : Nat
  minChunkSizeCfg : Nat
  maxChunkSizeCfg : Nat
  targetChunkUploadDurationCfg : Nat
deriving DecidableEq, Repr

/-- Modelled from the spec: `SyncOptions::fillFromEnvironmentVariables`
(`libsync/syncoptions.cpp` is not under src/). The spec's propagation policy
fixes the parallelism budget at 6, or 20 when HTTP/2 is negotiated, and
names no environment override of any sync option, so the spec-modelled fill
changes nothing. -/
def fillFromEnvironmentVariables (o : SyncOptions) : SyncOptions := o

/-- Modelled from the spec: `SyncOptions::verifyChunkSizes`
(`libsync/syncoptions.cpp` is not under src/). The spec clamps the adaptive
chunk size to the configured minimum and maximum and says nothing about the
other fields. -/
def verifyChunkSizes (o : SyncOptions) : SyncOptions :=
  { o with initialChunkSize := min (max o.initialChunkSize o.minChunkSize) o.maxChunkSize }

/-- Embedding of `Folder::setSyncOptions` (folder.cpp lines 956-977): assembles the
`SyncOptions` handed to the engine. The big-folder limit is converted from MB
to bytes when enabled and `-1` otherwise; the parallel-network-jobs budget is
20 when the account negotiated HTTP/2 and 6 otherwise. -/
def setSyncOptions (cfg : ConfigInputs) (isHttp2Supported : Bool) :
    SyncOptions :=
  let opt : SyncOptions :=
    { newBigFolderSizeLimit :=
        if cfg.newBigFolderSizeLimitEnabled then
          cfg.newBigFolderSizeLimitMB * 1000 * 1000
        else -1
      confirmExternalStorage := cfg.confirmExternalStorage
      moveFilesToTrash := cfg.moveToTrash
      parallelNetworkJobs := if isHttp2Supported then 20 else 6
      initialChunkSize := cfg.chunkSize
      minChunkSize := cfg.minChunkSizeCfg
      maxChunkSize := cfg.maxChunkSizeCfg
      targetChunkUploadDuration := cfg.targetChunkUploadDurationCfg }
  verifyChunkSizes (fillFromEnvironmentVariables opt)

/-- Embedding of `Folder::slotTerminateSync` (folder.cpp lines 834-843): when the engine
is running, invoke `SyncEngine::abort()` (the returned boolean) and set the
sync state to `SyncAbortRequested`; otherwise do nothing. -/
def slotTerminateSync (isSyncRunning : Bool) (currentState : SyncStatus) :
    Bool × SyncStatus :=
  if isSyncRunning then (true, SyncStatus.SyncAbortRequested)
  else (false, currentState)

/-- Item status (`SyncFileItem::Status`, spec section 3). -/
inductive ItemStatus where
  | NoStatus
  | Success
  | Warning
  | SoftError
  | NormalError
  | FatalError
  | FileLocked
  | FileIgnored
  | Conflict
  | Restoration
  | Blacklisted
deriving DecidableEq, Repr

/-- Sync instruction (spec section 3 instruction enumeration). -/
inductive CSyncInstruction where
  | NONE
  | NEW
  | UPDATE_METADATA
  | RENAME
  | REMOVE
  | CONFLICT
  | IGNORE
  | ERROR
  | SYNC
  | UPDATE_VFS_METADATA
  | TYPE_CHANGE
deriving DecidableEq, Repr

/-- A completed sync item as seen by `Folder::slotItemCompleted`. -/
structure SyncFileItem where
  status : ItemStatus
  instruction : CSyncInstruction
deriving DecidableEq, Repr

/-- Modelled from the spec: the CSYNC instruction flag values (`csync.h` is
not under src/); the mask test
`instruction & (CSYNC_INSTRUCTION_NONE OR CSYNC_INSTRUCTION_UPDATE_METADATA)`
is modelled over the spec's abstract instruction enumeration as membership of
the instruction in the two named alternatives. -/
def instructionInUiDropMask (i : CSyncInstruction) : Bool :=
  decide (i = CSyncInstruction.NONE)
    || decide (i = CSyncInstruction.UPDATE_METADATA)

/-- Modelled from the spec: `SyncResult::processCompletedItem`
(`libsync/syncresult.cpp` is not under src/): the completed item is folded
into the run's sync result; the fold is recorded as the list of counted
items. -/
def processCompletedItem (res : List SyncFileItem) (item : SyncFileItem) :
    List SyncFileItem :=
  res ++ [item]

/-- Embedding of `Folder::slotItemCompleted` (folder.cpp lines 1119-1131): a successful
item whose instruction falls in the none/update-metadata mask is dropped;
every other item is folded into the sync result, written to the sync run file
log, and published through the `itemCompleted` event (the returned boolean). -/
def slotItemCompleted (item : SyncFileItem) (res : List SyncFileItem)
    (log : List SyncFileItem) :
    List SyncFileItem × List SyncFileItem × Bool :=
  if item.status = ItemStatus.Success
      ∧ instructionInUiDropMask item.instruction = true then
    (res, log, false)
  else (processCompletedItem res item, log ++ [item], true)

/-! Sample data used to instantiate the theorems on concrete inputs. -/

/-- A sample sync-error message. -/
def sampleErr : String := "could not read system exclude file"

/-- A sample canonical local folder path (with trailing slash). -/
def sampleRoot : String := "/home/user/cloud/"

/-- A sample watched path inside the sample folder. -/
def samplePath : String := "/home/user/cloud/docs/sub/report.txt"

/-- A sample big-folder path without a trailing slash. -/
def bigFolderA : String := "photos"

/-- A sample relative path of a directory two levels down. -/
def sampleDocsSub : String := "docs/sub"

/-- A sample relative path unrelated to `samplePath`. -/
def sampleMusic : String := "music"

/-- Empty selective-sync lists. -/
def emptyLists : SelectiveSyncLists :=
  { blackList := [], whiteList := [], undecidedList := [] }

/-- An environment in which the watched change was made by the engine
itself. -/
def engineTouchedEnv : WatchedEnv :=
  { folderPath := sampleRoot
    engineTouched := true
    recordValid := false
    fileChanged := true
    pinState := Option.none
    recordIsVirtualFile := false
    recordIsFile := true }

/-- An environment for an unlock notification not caused by the engine. -/
def unlockEnv : WatchedEnv :=
  { folderPath := sampleRoot
    engineTouched := false
    recordValid := false
    fileChanged := true
    pinState := Option.none
    recordIsVirtualFile := false
    recordIsFile := true }

/-- A sample error blacklist with two soft-local entries: one on an ancestor
directory of `samplePath`, one on an unrelated path. -/
def sampleSoftBl : ErrorBlacklist :=
  [(sampleMusic, BlacklistCategory.LocalSoftError),
   (sampleDocsSub, BlacklistCategory.LocalSoftError)]

/-- A folder state representing a clean finished run: no errors, no item
failures, not paused, one prior follow-up, a nonempty whitelist. -/
def cleanState : FolderState :=
  { status := SyncStatus.SyncRunning
    syncErrorStrings := []
    foundFilesNotSynced := false
    definitionPaused := false
    consecutiveFailingSyncs := 2
    consecutiveFollowUpSyncs := 0
    selectiveSyncWhiteList := [sampleMusic]
    timeSinceLastFullLocalDiscoveryValid := false }

/-- A folder state for a run that recorded a sync error string. -/
def errorState : FolderState :=
  { status := SyncStatus.SyncRunning
    syncErrorStrings := [sampleErr]
    foundFilesNotSynced := false
    definitionPaused := false
    consecutiveFailingSyncs := 0
    consecutiveFollowUpSyncs := 0
    selectiveSyncWhiteList := [sampleMusic]
    timeSinceLastFullLocalDiscoveryValid := true }

/-! Theorems. -/

/-- Claim C1: when a sync run starts, the engine is put into
`database_and_filesystem` local-discovery mode exactly when the folder
watcher exists and is reliable, a full local discovery has happened before,
and the configured full-local-discovery interval has not yet expired since
the last full discovery (a negative interval meaning periodic full runs are
never required); in every other case the run uses `filesystem_only`. -/
theorem claim_C1_local_discovery_mode
    (folderWatcherExists watcherIsReliable hasDoneFullLocalDiscovery : Bool)
    (elapsedMs : Nat) (intervalMs : Int) :
    (startSyncLocalDiscoveryStyle folderWatcherExists watcherIsReliable
        hasDoneFullLocalDiscovery elapsedMs intervalMs
      = LocalDiscoveryStyle.DatabaseAndFilesystem
    ↔ (folderWatcherExists = true ∧ watcherIsReliable = true
        ∧ hasDoneFullLocalDiscovery = true
        ∧ (intervalMs < 0 ∨ (elapsedMs : Int) ≤ intervalMs)))
    ∧ (startSyncLocalDiscoveryStyle folderWatcherExists watcherIsReliable
        hasDoneFullLocalDiscovery elapsedMs intervalMs
      = LocalDiscoveryStyle.FilesystemOnly
    ↔ ¬ (folderWatcherExists = true ∧ watcherIsReliable = true
        ∧ hasDoneFullLocalDiscovery = true
        ∧ (intervalMs < 0 ∨ (elapsedMs : Int) ≤ intervalMs))) := by
  unfold startSyncLocalDiscoveryStyle hasExpired
  cases folderWatcherExists <;> cases watcherIsReliable <;>
    cases hasDoneFullLocalDiscovery <;> simp <;> omega

/-- Witness for claim C1: with a reliable watcher, a prior full discovery and
an hour-long interval not yet expired, the run reads from the database. -/
theorem claim_C1_witness :
    startSyncLocalDiscoveryStyle true true true 5000 3600000
      = LocalDiscoveryStyle.DatabaseAndFilesystem :=
  (claim_C1_local_discovery_mode true true true 5000 3600000).1.mpr
    ⟨rfl, rfl, rfl, Or.inr (by decide)⟩

/-- Claim C7: the parallel-network-jobs budget handed to the engine by
`Folder::setSyncOptions` is 20 when the account supports HTTP/2 and 6
otherwise. -/
theorem claim_C7_parallel_network_jobs (cfg : ConfigInputs)
    (isHttp2Supported : Bool) :
    (setSyncOptions cfg isHttp2Supported).parallelNetworkJobs
      = if isHttp2Supported then 20 else 6 := by
  cases isHttp2Supported <;>
    simp [setSyncOptions, fillFromEnvironmentVariables, verifyChunkSizes]

/-- Claim C8: a termination request while the engine is running invokes
`abort()` and moves the folder to `sync_abort_requested`; with no running
sync the state is left unchanged and no abort is issued. -/
theorem claim_C8_terminate_sync (currentState : SyncStatus) :
    slotTerminateSync true currentState
        = (true, SyncStatus.SyncAbortRequested)
    ∧ slotTerminateSync false currentState = (false, currentState) :=
  ⟨rfl, rfl⟩

/-- Claim C3: after a sync run finishes, the folder status is `Error` iff at
least one sync error string was recorded during the run; with no error
strings the status is `Problem` iff some files were found not synced (the run
still reaches the normal finish path, it was not aborted by those item
failures); otherwise the status is `Paused` when the folder definition is
paused and `Success` in all remaining cases. -/
theorem claim_C3_finished_status (success : Bool) (a : AnotherSyncNeeded)
    (style : LocalDiscoveryStyle) (s : FolderState) :
    ((slotSyncFinished success a style s).1.status = SyncStatus.Error
      ↔ s.syncErrorStrings ≠ [])
    ∧ (s.syncErrorStrings = [] →
        ((slotSyncFinished success a style s).1.status = SyncStatus.Problem
          ↔ s.foundFilesNotSynced = true))
    ∧ (s.syncErrorStrings = [] → s.foundFilesNotSynced = false →
        (slotSyncFinished success a style s).1.status
          = if s.definitionPaused then SyncStatus.Paused
            else SyncStatus.Success) := by
  unfold slotSyncFinished
  by_cases h₁ : s.syncErrorStrings = [] <;>
    cases h₂ : s.foundFilesNotSynced <;>
      cases h₃ : s.definitionPaused <;>
        simp [h₁, h₂, h₃]

/-- Witness for claim C3: a run that recorded an error string ends with the
folder in `Error`. -/
theorem claim_C3_witness :
    (slotSyncFinished false AnotherSyncNeeded.NoFollowUpSync
        LocalDiscoveryStyle.FilesystemOnly errorState).1.status
      = SyncStatus.Error :=
  (claim_C3_finished_status false AnotherSyncNeeded.NoFollowUpSync
      LocalDiscoveryStyle.FilesystemOnly errorState).1.mpr (by decide)

/-- Claim C9: after a run whose final folder status is `Success` and for
which the engine reported success, the journal's selective-sync whitelist is
reset to the empty list; runs ending in `Problem`, `Error` or `Paused` leave
the whitelist untouched. -/
theorem claim_C9_whitelist_reset (success : Bool) (a : AnotherSyncNeeded)
    (style : LocalDiscoveryStyle) (s : FolderState) :
    (((slotSyncFinished success a style s).1.status = SyncStatus.Success
        ∧ success = true) →
      (slotSyncFinished success a style s).1.selectiveSyncWhiteList = [])
    ∧ (((slotSyncFinished success a style s).1.status = SyncStatus.Problem
        ∨ (slotSyncFinished success a style s).1.status = SyncStatus.Error
        ∨ (slotSyncFinished success a style s).1.status = SyncStatus.Paused) →
      (slotSyncFinished success a style s).1.selectiveSyncWhiteList
        = s.selectiveSyncWhiteList) := by
  unfold slotSyncFinished
  cases success <;>
    by_cases h₁ : s.syncErrorStrings = [] <;>
      cases h₂ : s.foundFilesNotSynced <;>
        cases h₃ : s.definitionPaused <;>
          simp [h₁, h₂, h₃]

/-- Witness for claim C9: a clean successful run clears the whitelist. -/
theorem claim_C9_witness :
    (slotSyncFinished true AnotherSyncNeeded.NoFollowUpSync
        LocalDiscoveryStyle.FilesystemOnly cleanState).1.selectiveSyncWhiteList
      = [] :=
  (claim_C9_whitelist_reset true AnotherSyncNeeded.NoFollowUpSync
      LocalDiscoveryStyle.FilesystemOnly cleanState).1 ⟨by decide, rfl⟩

/-- Claim C4: a newly discovered big remote folder is normalized to end with
a slash, added to the selective-sync undecided list when not already there,
and exactly in that case the new-big-folder event is raised; a big folder
already present in the undecided list raises no event. -/
theorem claim_C4_new_big_folder (j : SelectiveSyncLists) (newF : String) :
    ((slotNewBigFolderDiscovered j newF).2 = true
      ↔ normalizedBigFolderPath newF ∉ j.undecidedList)
    ∧ ((slotNewBigFolderDiscovered j newF).1.undecidedList
        = if normalizedBigFolderPath newF ∈ j.undecidedList then
            j.undecidedList
          else j.undecidedList ++ [normalizedBigFolderPath newF])
    ∧ (endsWithChar newF slashChar = false →
        normalizedBigFolderPath newF = newF.push slashChar)
    ∧ (endsWithChar newF slashChar = true →
        normalizedBigFolderPath newF = newF) := by
  refine ⟨?_, ?_, ?_, ?_⟩
  · unfold slotNewBigFolderDiscovered
    by_cases hbw : normalizedBigFolderPath newF ∉ j.blackList
        ∧ normalizedBigFolderPath newF ∉ j.whiteList <;>
      by_cases hu : normalizedBigFolderPath newF ∈ j.undecidedList <;>
        simp [hbw, hu]
  · unfold slotNewBigFolderDiscovered
    by_cases hbw : normalizedBigFolderPath newF ∉ j.blackList
        ∧ normalizedBigFolderPath newF ∉ j.whiteList <;>
      by_cases hu : normalizedBigFolderPath newF ∈ j.undecidedList <;>
        simp [hbw, hu]
  · intro h
    unfold normalizedBigFolderPath
    simp [h]
  · intro h
    unfold normalizedBigFolderPath
    simp [h]

/-- Witness for claim C4: a big folder not yet on the undecided list raises
the event. -/
theorem claim_C4_witness :
    (slotNewBigFolderDiscovered emptyLists bigFolderA).2 = true :=
  (claim_C4_new_big_folder emptyLists bigFolderA).1.mpr (by decide)

/-- Helper for claim C2: along a row of runs that all request an immediate
follow-up, the number of scheduled follow-ups is capped by what remains of
the 3-run budget. -/
theorem followUpScheduleTrace_count (success : Bool)
    (style : LocalDiscoveryStyle) (s : FolderState) (n : Nat) :
    (followUpScheduleTrace success style s n).count true
      = min n (3 - s.consecutiveFollowUpSyncs) := by
  induction n generalizing s with
  | zero => simp [followUpScheduleTrace]
  | succ n ih =>
    have hc : (slotSyncFinished success AnotherSyncNeeded.ImmediateFollowUp
          style s).1.consecutiveFollowUpSyncs
        = s.consecutiveFollowUpSyncs + 1 := by
      simp [slotSyncFinished]
    have hs : (slotSyncFinished success AnotherSyncNeeded.ImmediateFollowUp
          style s).2
        = decide (s.consecutiveFollowUpSyncs + 1 ≤ 3) := by
      simp [slotSyncFinished]
    simp only [followUpScheduleTrace, List.count_cons, ih, hc, hs]
    by_cases h : s.consecutiveFollowUpSyncs + 1 ≤ 3 <;> simp [h] <;> omega

/-- Claim C2: a finished run requesting an immediate follow-up increments the
consecutive-follow-up counter and reschedules the folder only while the
counter is at most 3 — so starting from a reset counter, a row of n
follow-up-requesting runs schedules exactly min n 3 follow-up syncs — and a
finished run that does not request a follow-up resets the counter to 0
without scheduling. -/
theorem claim_C2_followup_cap (success : Bool) (style : LocalDiscoveryStyle)
    (s : FolderState) (n : Nat) :
    ((slotSyncFinished success AnotherSyncNeeded.ImmediateFollowUp style
          s).1.consecutiveFollowUpSyncs
        = s.consecutiveFollowUpSyncs + 1
      ∧ ((slotSyncFinished success AnotherSyncNeeded.ImmediateFollowUp style
            s).2 = true
          ↔ s.consecutiveFollowUpSyncs + 1 ≤ 3))
    ∧ ((slotSyncFinished success AnotherSyncNeeded.NoFollowUpSync style
          s).1.consecutiveFollowUpSyncs = 0
        ∧ (slotSyncFinished success AnotherSyncNeeded.NoFollowUpSync style
            s).2 = false)
    ∧ (s.consecutiveFollowUpSyncs = 0 →
        (followUpScheduleTrace success style s n).count true = min n 3) := by
  refine ⟨⟨by simp [slotSyncFinished], by simp [slotSyncFinished]⟩,
    ⟨by simp [slotSyncFinished], by simp [slotSyncFinished]⟩, ?_⟩
  intro h₀
  simpa [h₀] using followUpScheduleTrace_count success style s n

/-- Witness for claim C2: five consecutive follow-up requests starting from a
reset counter schedule exactly three follow-up syncs. -/
theorem claim_C2_witness :
    (followUpScheduleTrace true LocalDiscoveryStyle.FilesystemOnly cleanState
        5).count true = min 5 3 :=
  (claim_C2_followup_cap true LocalDiscoveryStyle.FilesystemOnly cleanState
      5).2.2 rfl

/-- Helper: a blacklist-entry wipe only removes entries. -/
theorem wipeErrorBlacklistEntry_sublist (bl : ErrorBlacklist) (p : String)
    (cat : Option BlacklistCategory) :
    (wipeErrorBlacklistEntry bl p cat).Sublist bl :=
  List.filter_sublist bl

/-- Helper: membership in a wiped blacklist. -/
theorem mem_wipeErrorBlacklistEntry (bl : ErrorBlacklist) (p : String)
    (cat : Option BlacklistCategory) (e : String × BlacklistCategory) :
    e ∈ wipeErrorBlacklistEntry bl p cat
      ↔ e ∈ bl ∧ (e.1 = p → categoryMatches cat e.2 = false) := by
  simp [wipeErrorBlacklistEntry, List.mem_filter]
  tauto

/-- Helper: one unlock-loop step only removes entries. -/
theorem unlockAncestorStep_sublist (acc : ErrorBlacklist) (p : String) :
    (unlockAncestorStep acc p).Sublist acc := by
  unfold unlockAncestorStep
  split
  · split
    · exact wipeErrorBlacklistEntry_sublist acc p Option.none
    · exact List.Sublist.refl acc
  · exact List.Sublist.refl acc

/-- Helper: the whole unlock loop only removes entries. -/
theorem foldl_unlockAncestorStep_sublist (L : List String)
    (acc : ErrorBlacklist) :
    (L.foldl unlockAncestorStep acc).Sublist acc := by
  induction L generalizing acc with
  | nil => exact List.Sublist.refl acc
  | cons p L ih =>
    exact (ih (unlockAncestorStep acc p)).trans
      (unlockAncestorStep_sublist acc p)

/-- Helper: on a path-keyed blacklist, the step for parent `p` leaves no
soft-local entry keyed `p` behind. -/
theorem unlockAncestorStep_clears (acc : ErrorBlacklist) (p : String)
    (huniq : acc.Pairwise fun a b => a.1 ≠ b.1) :
    ∀ e ∈ unlockAncestorStep acc p,
      e.2 = BlacklistCategory.LocalSoftError → e.1 ≠ p := by
  intro e he hcat heq
  unfold unlockAncestorStep at he
  split at he
  · rename_i r hfind
    have hfind' : acc.find? (fun x => decide (x.1 = p)) = some r := hfind
    have hrp : r.1 = p := by simpa using @List.find?_some _ _ _ _ hfind'
    have hrmem : r ∈ acc := List.mem_of_find?_eq_some hfind'
    by_cases hr : r.2 = BlacklistCategory.LocalSoftError
    · rw [if_pos hr] at he
      have hmem := (mem_wipeErrorBlacklistEntry acc p Option.none e).mp he
      have := hmem.2 heq
      simp [categoryMatches] at this
    · rw [if_neg hr] at he
      have hne : e ≠ r := by
        intro h
        rw [h] at hcat
        exact hr hcat
      have hsym : Symmetric fun a b : String × BlacklistCategory =>
          a.1 ≠ b.1 := fun a b h h' => h h'.symm
      exact (huniq.forall hsym he hrmem hne) (heq.trans hrp.symm)
  · rename_i hfind
    have hfind' : acc.find? (fun x => decide (x.1 = p)) = none := by
      cases hopt : errorBlacklistEntry acc p with
      | none => exact hopt
      | some r => exact (hfind r hopt).elim
    have hnone := List.find?_eq_none.mp hfind' e he
    simp [heq] at hnone

/-- Helper: after the unlock loop has processed a parent list, no soft-local
entry keyed by any processed parent survives. -/
theorem foldl_unlockAncestorStep_clears (L : List String)
    (acc : ErrorBlacklist)
    (huniq : acc.Pairwise fun a b => a.1 ≠ b.1) :
    ∀ q ∈ L, ∀ e ∈ L.foldl unlockAncestorStep acc,
      e.2 = BlacklistCategory.LocalSoftError → e.1 ≠ q := by
  induction L generalizing acc with
  | nil =>
    intro q hq
    cases hq
  | cons p L ih =>
    intro q hq e he hcat
    rcases List.mem_cons.mp hq with heqq | hq'
    · subst heqq
      have he' : e ∈ unlockAncestorStep acc q :=
        (foldl_unlockAncestorStep_sublist L (unlockAncestorStep acc q)).subset
          he
      exact unlockAncestorStep_clears acc q huniq e he' hcat
    · exact ih (unlockAncestorStep acc p)
        (huniq.sublist (unlockAncestorStep_sublist acc p)) q hq' e he hcat

/-- Helper: for a contained path, `slotWatchedPathChanged` on an unlock
notification rewrites the error blacklist through `unlockWipe`. -/
theorem slotWatchedPathChanged_unlock_blacklist (e : WatchedEnv)
    (bl : ErrorBlacklist) (touched : List String) (path : String)
    (hchild : isChildPathOf path e.folderPath = true) :
    (slotWatchedPathChanged e bl touched path ChangeReason.UnLock).1
      = unlockWipe bl (path.drop e.folderPath.length) := by
  unfold slotWatchedPathChanged
  by_cases ht : e.engineTouched = true <;> simp [hchild, ht]

/-- Claim C6: for a path inside the folder, an unlock notification wipes the
soft-local error-blacklist entry recorded for that path and the entry of
every parent directory whose entry has category `LocalSoftError` (on a
path-keyed blacklist no soft-local entry for the path or any of its parents
survives); moreover the whole `LocalSoftError` category is wiped when the
folder is constructed with a valid local path. -/
theorem claim_C6_unlock_wipes_soft_errors (e : WatchedEnv)
    (bl : ErrorBlacklist) (touched : List String) (path : String)
    (hchild : isChildPathOf path e.folderPath = true)
    (huniq : bl.Pairwise fun a b => a.1 ≠ b.1) :
    (∀ entry ∈ (slotWatchedPathChanged e bl touched path
        ChangeReason.UnLock).1,
      entry.2 = BlacklistCategory.LocalSoftError →
        entry.1 ≠ path.drop e.folderPath.length
          ∧ entry.1 ∉ ancestorChain (path.drop e.folderPath.length))
    ∧ (∀ entry ∈ folderConstructorBlacklist true bl,
        entry.2 ≠ BlacklistCategory.LocalSoftError) := by
  constructor
  · intro entry hmem hcat
    rw [slotWatchedPathChanged_unlock_blacklist e bl touched path hchild]
      at hmem
    unfold unlockWipe at hmem
    constructor
    · intro heq
      have hm₁ : entry ∈ wipeErrorBlacklistEntry bl
          (path.drop e.folderPath.length)
          (some BlacklistCategory.LocalSoftError) :=
        (foldl_unlockAncestorStep_sublist _ _).subset hmem
      have hmem₂ := (mem_wipeErrorBlacklistEntry _ _ _ entry).mp hm₁
      have hf := hmem₂.2 heq
      simp [categoryMatches, hcat] at hf
    · intro hq
      exact foldl_unlockAncestorStep_clears _ _
        (huniq.sublist (wipeErrorBlacklistEntry_sublist bl _ _))
        entry.1 hq entry hmem hcat rfl
  · intro entry hmem
    have := (List.mem_filter.mp hmem).2
    simpa using this

/-- Witness for claim C6: after an unlock under `samplePath`, the surviving
soft-local entry is neither the notified relative path nor one of its parent
directories (the soft-local entry on the parent `docs/sub` is wiped). -/
theorem claim_C6_witness :
    (sampleMusic, BlacklistCategory.LocalSoftError).1
        ≠ samplePath.drop unlockEnv.folderPath.length
    ∧ (sampleMusic, BlacklistCategory.LocalSoftError).1
        ∉ ancestorChain (samplePath.drop unlockEnv.folderPath.length) :=
  (claim_C6_unlock_wipes_soft_errors unlockEnv sampleSoftBl [] samplePath
      (by decide) (by decide)).1
    (sampleMusic, BlacklistCategory.LocalSoftError) (by decide) rfl

/-- Counterexample to claim C5 as stated: a watcher notification for a path
contained in the sync root whose change was made by the sync engine itself
appends the relative path to the touched set but does not schedule a sync
run. -/
theorem claim_C5_counterexample :
    isChildPathOf samplePath engineTouchedEnv.folderPath = true
    ∧ (slotWatchedPathChanged engineTouchedEnv [] [] samplePath
        ChangeReason.Other).2.1
      = [samplePath.drop engineTouchedEnv.folderPath.length]
    ∧ (slotWatchedPathChanged engineTouchedEnv [] [] samplePath
        ChangeReason.Other).2.2 = false := by
  refine ⟨by decide, by decide, by decide⟩

/-- Claim C5 as amended: every watcher notification carrying a path contained
in the sync root appends the path relative to the root to the touched-path
set; a sync run is scheduled exactly when the change was not made by the sync
engine itself and, for non-unlock notifications, the notification is not
spurious. -/
theorem claim_C5_touch_and_schedule (e : WatchedEnv) (bl : ErrorBlacklist)
    (touched : List String) (path : String) (reason : ChangeReason)
    (hchild : isChildPathOf path e.folderPath = true) :
    ((slotWatchedPathChanged e bl touched path reason).2.1
        = touched ++ [path.drop e.folderPath.length])
    ∧ ((slotWatchedPathChanged e bl touched path reason).2.2 = true
        ↔ (e.engineTouched = false
            ∧ (reason = ChangeReason.UnLock ∨ spuriousNotice e = false))) := by
  unfold slotWatchedPathChanged
  by_cases ht : e.engineTouched = true
  · cases reason <;> simp [hchild, ht]
  · have ht' : e.engineTouched = false := by
      cases h : e.engineTouched
      · rfl
      · exact absurd h ht
    cases reason
    · simp [hchild, ht']
    · by_cases hsp : spuriousNotice e = true
      · simp [hchild, ht', hsp]
      · have hsp' : spuriousNotice e = false := by
          cases h : spuriousNotice e
          · rfl
          · exact absurd h hsp
        simp [hchild, ht', hsp']

/-- Witness for claim C5 as amended: a real external change inside the root
is appended to the touched set and schedules a run. -/
theorem claim_C5_witness :
    (slotWatchedPathChanged unlockEnv [] [] samplePath
        ChangeReason.Other).2.1
      = [] ++ [samplePath.drop unlockEnv.folderPath.length] :=
  (claim_C5_touch_and_schedule unlockEnv [] [] samplePath ChangeReason.Other
      (by decide)).1

/-- Claim C10: a completed item with status success and an instruction in the
none/update-metadata mask is dropped (not folded into the sync result, not
logged, no item-completed event); every other completed item is counted,
logged and published. -/
theorem claim_C10_item_completed_filter (item : SyncFileItem)
    (res log : List SyncFileItem) :
    ((item.status = ItemStatus.Success
        ∧ (item.instruction = CSyncInstruction.NONE
            ∨ item.instruction = CSyncInstruction.UPDATE_METADATA)) →
      slotItemCompleted item res log = (res, log, false))
    ∧ (¬ (item.status = ItemStatus.Success
        ∧ (item.instruction = CSyncInstruction.NONE
            ∨ item.instruction = CSyncInstruction.UPDATE_METADATA)) →
      slotItemCompleted item res log
        = (res ++ [item], log ++ [item], true)) := by
  unfold slotItemCompleted instructionInUiDropMask processCompletedItem
  constructor
  · rintro ⟨hs, hi⟩
    rcases hi with hi | hi <;> simp [hs, hi]
  · intro h
    rw [if_neg]
    intro ⟨hs, hi⟩
    simp only [Bool.or_eq_true, decide_eq_true_eq] at hi
    exact h ⟨hs, hi⟩

/-- Witness for claim C10: a successful metadata-only update is dropped from
the result, the log and the event stream. -/
theorem claim_C10_witness :
    slotItemCompleted
        { status := ItemStatus.Success
          instruction := CSyncInstruction.UPDATE_METADATA } [] []
      = ([], [], false) :=
  (claim_C10_item_completed_filter
      { status := ItemStatus.Success
        instruction := CSyncInstruction.UPDATE_METADATA } [] []).1
    ⟨rfl, Or.inr rfl⟩

end OCC
